import Mathlib

/-
Shallow embedding of the settlement contract `src/contract/src/Web3VPN.sol`
(Solidity ^0.8.13) of the web3-vpn repository.

Modelling conventions:
- `uint256` values are `Nat`; Solidity 0.8 checked arithmetic is modelled by
  `addU` / `subU` / `mulU`, which return `Except Err Nat` and fail with
  `Err.panic` exactly when the EVM would revert with `Panic(0x11)`
  (overflow past `2^256` or underflow below `0`).
- `&&` / `||` in a `require` are short-circuiting in Solidity, so a panicking
  subexpression on the right of `&&` is only evaluated when the left conjunct
  holds; the embedding mirrors this evaluation order.
- A revert rolls the whole transaction back; this is encoded by `Except`:
  an `.error` result carries no post-state, and `txState` / `txEvent` give the
  externally observable outcome of a transaction (pre-state and no event on
  revert).
- Addresses are `Nat`.  ECDSA recovery over the EIP-712 digest
  (`_verifySignature`, which hashes the struct and calls `ECDSA.recover`) is
  cryptographic and is modelled by an uninterpreted parameter
  `recover : Usage → Sig → Address`; signatures are opaque `Nat` values.
  All theorems about the contract hold for every choice of `recover`.
- Solidity mappings default to `0` for absent keys, so `balances` and
  `lastSubmitTime` are total functions `Address → Nat`.
-/

namespace Web3VPN

/-- EVM addresses, abstracted to natural numbers. -/
abbrev Address := Nat

/-- Opaque signature bytes, abstracted to a natural number token. -/
abbrev Sig := Nat

/-- One past the largest `uint256` value. -/
def UMAX : Nat := 2 ^ 256

/-- Point update of a Solidity mapping (`m[k] = v`). -/
def setMap (m : Address → Nat) (k : Address) (v : Nat) : Address → Nat :=
  fun a => if a = k then v else m a

/-- The `Server` struct (registry entry). -/
structure Server where
  endpoint : String
  name : String
  owner : Address
  registrationTime : Nat
deriving DecidableEq, Repr

/-- The `Usage` struct: one party's signed usage record for a session. -/
structure Usage where
  serverAddr : Address
  clientAddr : Address
  bytesUsed : Nat
  timestamp : Nat
deriving DecidableEq, Repr

/-- The `UsageUploaded(serverAddr, clientAddr, bytesUsed)` event. -/
structure UsageUploaded where
  serverAddr : Address
  clientAddr : Address
  bytesUsed : Nat
deriving DecidableEq, Repr

/-- The contract's storage. -/
structure VPNState where
  tokenAddress : Address
  submitInterval : Nat
  servers : List Server
  balances : Address → Nat
  lastSubmitTime : Address → Nat

/-- Revert reasons of `submitUsageReport`, one constructor per `require`
message of the source, plus `panic` for checked-arithmetic reverts. -/
inductive Err where
  | panic
  | tooSoon
  | unauthorized
  | zeroServerUsage
  | zeroClientUsage
  | serverAddressMismatch
  | clientAddressMismatch
  | nonPositiveTimestamp
  | timestampSkew
  | staleServerTimestamp
  | staleClientTimestamp
  | invalidServerSignature
  | invalidClientSignature
  | usageMismatch
  | insufficientBalance
deriving DecidableEq, Repr

/-- Checked `uint256` addition. -/
def addU (a b : Nat) : Except Err Nat :=
  if a + b < UMAX then .ok (a + b) else .error .panic

/-- Checked `uint256` subtraction. -/
def subU (a b : Nat) : Except Err Nat :=
  if b ≤ a then .ok (a - b) else .error .panic

/-- Checked `uint256` multiplication. -/
def mulU (a b : Nat) : Except Err Nat :=
  if a * b < UMAX then .ok (a * b) else .error .panic

/-- `getBytePrice()` (line 52): the constant unit price `1e18`. -/
def getBytePrice : Nat := 10 ^ 18

/-- The `onlyAfterInterval` modifier (lines 39-42):
`require(block.timestamp >= lastSubmitTime[msg.sender] + submitInterval)`. -/
def onlyAfterInterval (st : VPNState) (sender now : Nat) : Except Err Unit :=
  match addU (st.lastSubmitTime sender) st.submitInterval with
  | .error e => .error e
  | .ok limit => if now ≥ limit then .ok () else .error .tooSoon

/-- Lines 94-99: timestamp positivity and the 20-second skew band.
The second `require`'s condition is a short-circuit `&&`: the right conjunct
`serverUsage.timestamp >= clientUsage.timestamp - 20` (a checked subtraction
that panics when `clientUsage.timestamp < 20`) is evaluated only when the
left conjunct holds. -/
def checkTimestampSkew (serverUsage clientUsage : Usage) : Except Err Unit :=
  if serverUsage.timestamp > 0 ∧ clientUsage.timestamp > 0 then
    match addU clientUsage.timestamp 20 with
    | .error e => .error e
    | .ok hi =>
      if serverUsage.timestamp ≤ hi then
        match subU clientUsage.timestamp 20 with
        | .error e => .error e
        | .ok lo =>
          if serverUsage.timestamp ≥ lo then .ok () else .error .timestampSkew
      else .error .timestampSkew
  else .error .nonPositiveTimestamp

/-- Lines 100-102: both record timestamps must be at least
`block.timestamp - submitInterval` (a checked subtraction, evaluated once per
`require`).  The source imposes no upper bound on the timestamps. -/
def checkFreshTimestamps (st : VPNState) (now : Nat)
    (serverUsage clientUsage : Usage) : Except Err Unit :=
  match subU now st.submitInterval with
  | .error e => .error e
  | .ok cutoff =>
    if serverUsage.timestamp ≥ cutoff then
      match subU now st.submitInterval with
      | .error e => .error e
      | .ok cutoff2 =>
        if clientUsage.timestamp ≥ cutoff2 then .ok ()
        else .error .staleClientTimestamp
    else .error .staleServerTimestamp

/-- `_verifySignature` (lines 128-132): recover the signer of the EIP-712
digest of the usage record.  The digest computation and `ECDSA.recover` are
abstracted into the `recover` parameter; the function is pure by type: it
reads no contract state. -/
def verifySignature (recover : Usage → Sig → Address)
    (usage : Usage) (signature : Sig) : Address :=
  recover usage signature

/-- Lines 111-117: the usage-tolerance check.
`maxDifference = (serverUsage.bytesUsed * 1) / 100 + 1000`, then a
short-circuit `&&` of `serverUsage.bytesUsed <= clientUsage.bytesUsed +
maxDifference` and `serverUsage.bytesUsed >= clientUsage.bytesUsed -
maxDifference`; the subtraction in the right conjunct is checked and panics
when `clientUsage.bytesUsed < maxDifference`. -/
def checkUsageDifference (serverUsage clientUsage : Usage) : Except Err Unit :=
  match mulU serverUsage.bytesUsed 1 with
  | .error e => .error e
  | .ok scaled =>
    match addU (scaled / 100) 1000 with
    | .error e => .error e
    | .ok maxDifference =>
      match addU clientUsage.bytesUsed maxDifference with
      | .error e => .error e
      | .ok hi =>
        if serverUsage.bytesUsed ≤ hi then
          match subU clientUsage.bytesUsed maxDifference with
          | .error e => .error e
          | .ok lo =>
            if serverUsage.bytesUsed ≥ lo then .ok ()
            else .error .usageMismatch
        else .error .usageMismatch

/-- The ledger transfer as a pure balance-map update: debit `fromAcct`, then
credit `toAcct` on the debited map (matching the write order of
`_payToServer`). -/
def transfer (bal : Address → Nat) (fromAcct toAcct : Address)
    (amount : Nat) : Address → Nat :=
  setMap (setMap bal fromAcct (bal fromAcct - amount)) toAcct
    ((setMap bal fromAcct (bal fromAcct - amount)) toAcct + amount)

/-- `_payToServer` (lines 134-138): require sufficient client balance, debit
the client, credit the server (a checked addition that can still revert on
overflow after the debit is rolled back with the rest of the transaction). -/
def payToServer (st : VPNState) (serverOwner clientOwner : Address)
    (amount : Nat) : Except Err VPNState :=
  if st.balances clientOwner ≥ amount then
    match subU (st.balances clientOwner) amount with
    | .error e => .error e
    | .ok newClientBal =>
      match addU ((setMap st.balances clientOwner newClientBal) serverOwner) amount with
      | .error e => .error e
      | .ok newServerBal =>
        let newBalances := setMap (setMap st.balances clientOwner newClientBal) serverOwner newServerBal
        .ok { st with balances := newBalances }
  else .error .insufficientBalance

/-- `submitUsageReport` (lines 82-126).  The `onlyAfterInterval` modifier
runs first, then each `require` of the body in source order; on success the
client pays the server for the averaged byte count, the `UsageUploaded`
event is emitted, and both parties' `lastSubmitTime` is set to
`block.timestamp` (server first, then client). -/
def submitUsageReport (recover : Usage → Sig → Address) (st : VPNState)
    (sender now : Nat) (serverUsage clientUsage : Usage)
    (serverSignature clientSignature : Sig) :
    Except Err (VPNState × UsageUploaded) :=
  match onlyAfterInterval st sender now with
  | .error e => .error e
  | .ok _ =>
    if sender = clientUsage.clientAddr ∨ sender = serverUsage.serverAddr then
      if serverUsage.bytesUsed > 0 then
        if clientUsage.bytesUsed > 0 then
          if serverUsage.serverAddr = clientUsage.serverAddr then
            if clientUsage.clientAddr = serverUsage.clientAddr then
              match checkTimestampSkew serverUsage clientUsage with
              | .error e => .error e
              | .ok _ =>
                match checkFreshTimestamps st now serverUsage clientUsage with
                | .error e => .error e
                | .ok _ =>
                  if verifySignature recover serverUsage serverSignature
                      = serverUsage.serverAddr then
                    if verifySignature recover clientUsage clientSignature
                        = clientUsage.clientAddr then
                      match checkUsageDifference serverUsage clientUsage with
                      | .error e => .error e
                      | .ok _ =>
                        match addU serverUsage.bytesUsed clientUsage.bytesUsed with
                        | .error e => .error e
                        | .ok total =>
                          match mulU (total / 2) getBytePrice with
                          | .error e => .error e
                          | .ok paymentAmount =>
                            match payToServer st serverUsage.serverAddr
                                clientUsage.clientAddr paymentAmount with
                            | .error e => .error e
                            | .ok st2 =>
                              let lst3 := setMap st2.lastSubmitTime serverUsage.serverAddr now
                              let st3 := { st2 with lastSubmitTime := lst3 }
                              let lst4 := setMap st3.lastSubmitTime clientUsage.clientAddr now
                              let st4 := { st3 with lastSubmitTime := lst4 }
                              .ok (st4,
                                ⟨serverUsage.serverAddr, clientUsage.clientAddr,
                                  total / 2⟩)
                    else .error .invalidClientSignature
                  else .error .invalidServerSignature
            else .error .clientAddressMismatch
          else .error .serverAddressMismatch
        else .error .zeroClientUsage
      else .error .zeroServerUsage
    else .error .unauthorized

/-- Whether a transaction result is a success. -/
def txOk {α : Type} (r : Except Err α) : Bool :=
  match r with
  | .ok _ => true
  | .error _ => false

/-- The externally observable post-state of a transaction: the new state on
success, the untouched pre-state on revert (the EVM rolls back). -/
def txState (st : VPNState) (r : Except Err (VPNState × UsageUploaded)) : VPNState :=
  match r with
  | .ok p => p.1
  | .error _ => st

/-- The externally observable event log of a transaction: the emitted event
on success, nothing on revert. -/
def txEvent (r : Except Err (VPNState × UsageUploaded)) : Option UsageUploaded :=
  match r with
  | .ok p => some p.2
  | .error _ => none

/-
Concrete scenarios used by witnesses and counterexamples.
-/

/-- A concrete signature model for witnesses: a signature token is read as
the address it recovers to. -/
def recoverBySig : Usage → Sig → Address :=
  fun _ signature => signature

/-- A funded base state: client `2` holds `10^24` wei of balance, the submit
interval is `10` seconds, no one has submitted yet. -/
def st0 : VPNState :=
  { tokenAddress := 77
    submitInterval := 10
    servers := []
    balances := fun a => if a = 2 then 10 ^ 24 else 0
    lastSubmitTime := fun _ => 0 }

/-- Provider record of the base scenario: server `1`, client `2`, 5000 bytes
at time 100. -/
def su0 : Usage := ⟨1, 2, 5000, 100⟩

/-- Consumer record of the base scenario, agreeing exactly. -/
def cu0 : Usage := ⟨1, 2, 5000, 100⟩

/-- Base state with the provider identity `1` rate-limited (last accepted
settlement at time 95). -/
def stC1 : VPNState :=
  { st0 with lastSubmitTime := fun a => if a = 1 then 95 else 0 }

/-- Base state with the non-participant identity `3` rate-limited. -/
def st9 : VPNState :=
  { st0 with lastSubmitTime := fun a => if a = 3 then 95 else 0 }

/-- A self-dealing state: identity `5` plays both roles and holds
`2*10^23 + 7` wei. -/
def st4 : VPNState :=
  { st0 with balances := fun a => if a = 5 then 2 * 10 ^ 23 + 7 else 0 }

/-- Self-dealing usage record: identity `5` is both server and client. -/
def su4 : Usage := ⟨5, 5, 200000, 100⟩

/-- Records of the base session carrying a timestamp 100 seconds in the
future of submission time 100. -/
def suF : Usage := ⟨1, 2, 5000, 200⟩

theorem addU_ok {a b c : Nat} (h : addU a b = .ok c) : c = a + b ∧ a + b < UMAX := by
  unfold addU at h
  split at h <;> simp_all

theorem addU_error {a b : Nat} {e : Err} (h : addU a b = .error e) : e = .panic := by
  unfold addU at h
  split at h <;> simp_all

theorem subU_ok {a b c : Nat} (h : subU a b = .ok c) : c = a - b ∧ b ≤ a := by
  unfold subU at h
  split at h <;> simp_all

theorem subU_error {a b : Nat} {e : Err} (h : subU a b = .error e) : e = .panic := by
  unfold subU at h
  split at h <;> simp_all

theorem mulU_ok {a b c : Nat} (h : mulU a b = .ok c) : c = a * b ∧ a * b < UMAX := by
  unfold mulU at h
  split at h <;> simp_all

theorem mulU_error {a b : Nat} {e : Err} (h : mulU a b = .error e) : e = .panic := by
  unfold mulU at h
  split at h <;> simp_all

theorem checkTimestampSkew_error {su cu : Usage} {e : Err}
    (h : checkTimestampSkew su cu = .error e) :
    e = .panic ∨ e = .nonPositiveTimestamp ∨ e = .timestampSkew := by
  unfold checkTimestampSkew at h
  split at h
  · split at h
    · injection h with h2
      subst h2
      exact Or.inl (addU_error (by assumption))
    · split at h
      · split at h
        · injection h with h2
          subst h2
          exact Or.inl (subU_error (by assumption))
        · split at h <;> simp_all
      · simp_all
  · simp_all

theorem checkFreshTimestamps_error {st : VPNState} {now : Nat} {su cu : Usage} {e : Err}
    (h : checkFreshTimestamps st now su cu = .error e) :
    e = .panic ∨ e = .staleServerTimestamp ∨ e = .staleClientTimestamp := by
  unfold checkFreshTimestamps at h
  split at h
  · injection h with h2
    subst h2
    exact Or.inl (subU_error (by assumption))
  · split at h
    · split at h
      · simp_all
      · split at h <;> simp_all
    · simp_all

theorem checkFreshTimestamps_ok_iff {st : VPNState} {now : Nat} {su cu : Usage}
    (hnow : st.submitInterval ≤ now) :
    checkFreshTimestamps st now su cu = .ok () ↔
      now - st.submitInterval ≤ su.timestamp ∧ now - st.submitInterval ≤ cu.timestamp := by
  unfold checkFreshTimestamps
  rw [show subU now st.submitInterval = .ok (now - st.submitInterval) by
    unfold subU; simp [hnow]]
  dsimp only
  split_ifs <;> simp_all

theorem checkUsageDifference_error {su cu : Usage} {e : Err}
    (h : checkUsageDifference su cu = .error e) :
    e = .panic ∨ e = .usageMismatch := by
  unfold checkUsageDifference at h
  split at h
  · injection h with h2
    subst h2
    exact Or.inl (mulU_error (by assumption))
  · split at h
    · injection h with h2
      subst h2
      exact Or.inl (addU_error (by assumption))
    · split at h
      · injection h with h2
        subst h2
        exact Or.inl (addU_error (by assumption))
      · split at h
        · split at h
          · injection h with h2
            subst h2
            exact Or.inl (subU_error (by assumption))
          · split at h <;> simp_all
        · simp_all

theorem onlyAfterInterval_ok_iff {st : VPNState} {sender now : Nat}
    (hNoOv : st.lastSubmitTime sender + st.submitInterval < UMAX) :
    onlyAfterInterval st sender now = .ok () ↔
      st.lastSubmitTime sender + st.submitInterval ≤ now := by
  unfold onlyAfterInterval
  rw [show addU (st.lastSubmitTime sender) st.submitInterval
      = .ok (st.lastSubmitTime sender + st.submitInterval) by
    unfold addU; simp [hNoOv]]
  dsimp only
  split_ifs <;> simp_all

theorem onlyAfterInterval_tooSoon_iff {st : VPNState} {sender now : Nat}
    (hNoOv : st.lastSubmitTime sender + st.submitInterval < UMAX) :
    onlyAfterInterval st sender now = .error .tooSoon ↔
      now < st.lastSubmitTime sender + st.submitInterval := by
  unfold onlyAfterInterval
  rw [show addU (st.lastSubmitTime sender) st.submitInterval
      = .ok (st.lastSubmitTime sender + st.submitInterval) by
    unfold addU; simp [hNoOv]]
  dsimp only
  split_ifs <;> simp_all

theorem payToServer_ok {st : VPNState} {serverOwner clientOwner : Address}
    {amount : Nat} {st2 : VPNState}
    (h : payToServer st serverOwner clientOwner amount = .ok st2) :
    amount ≤ st.balances clientOwner ∧
      st2 = { st with balances := transfer st.balances clientOwner serverOwner amount } := by
  unfold payToServer at h
  split at h
  · split at h
    · simp_all
    · split at h
      · simp_all
      · injection h with h2
        obtain ⟨hc, hcle⟩ := subU_ok (by assumption)
        obtain ⟨hs, hslt⟩ := addU_ok (by assumption)
        subst hc hs h2
        refine ⟨by assumption, ?_⟩
        simp [transfer]
  · simp_all

theorem payToServer_error {st : VPNState} {serverOwner clientOwner : Address}
    {amount : Nat} {e : Err}
    (h : payToServer st serverOwner clientOwner amount = .error e) :
    e = .panic ∨ e = .insufficientBalance := by
  unfold payToServer at h
  split at h
  · split at h
    · injection h with h2
      subst h2
      exact Or.inl (subU_error (by assumption))
    · split at h
      · injection h with h2
        subst h2
        exact Or.inl (addU_error (by assumption))
      · simp_all
  · simp_all

theorem txOk_true_iff {α : Type} {r : Except Err α} :
    txOk r = true ↔ ∃ a, r = .ok a := by
  cases r <;> simp [txOk]

theorem submit_rateLimited {recover : Usage → Sig → Address} {st : VPNState}
    {sender now : Nat} {su cu : Usage} {ssig csig : Sig} {e : Err}
    (h : onlyAfterInterval st sender now = .error e) :
    submitUsageReport recover st sender now su cu ssig csig = .error e := by
  unfold submitUsageReport
  rw [h]

theorem submit_ok_spec {recover : Usage → Sig → Address} {st : VPNState}
    {sender now : Nat} {su cu : Usage} {ssig csig : Sig} {p : VPNState × UsageUploaded}
    (h : submitUsageReport recover st sender now su cu ssig csig = .ok p) :
    ((su.bytesUsed + cu.bytesUsed) / 2) * getBytePrice ≤ st.balances cu.clientAddr ∧
    p = ({ st with
            balances := transfer st.balances cu.clientAddr su.serverAddr
              (((su.bytesUsed + cu.bytesUsed) / 2) * getBytePrice),
            lastSubmitTime := setMap (setMap st.lastSubmitTime su.serverAddr now)
              cu.clientAddr now },
          ⟨su.serverAddr, cu.clientAddr, (su.bytesUsed + cu.bytesUsed) / 2⟩) := by
  unfold submitUsageReport at h
  generalize hbp : getBytePrice = bp at h ⊢
  split at h
  · simp_all
  · split at h
    · split at h
      · split at h
        · split at h
          · split at h
            · split at h
              · simp_all
              · split at h
                · simp_all
                · split at h
                  · split at h
                    · split at h
                      · simp_all
                      · split at h
                        · simp_all
                        · split at h
                          · simp_all
                          · split at h
                            · simp_all
                            · obtain ⟨htot, _⟩ := addU_ok (by assumption)
                              subst htot
                              obtain ⟨hpay, _⟩ := mulU_ok (by assumption)
                              subst hpay
                              obtain ⟨hle, hst2⟩ := payToServer_ok (by assumption)
                              subst hst2
                              injection h with h2
                              subst h2
                              exact ⟨hle, rfl⟩
                    · simp_all
                  · simp_all
            · simp_all
          · simp_all
        · simp_all
      · simp_all
    · simp_all

theorem submit_tooSoon_inv {recover : Usage → Sig → Address} {st : VPNState}
    {sender now : Nat} {su cu : Usage} {ssig csig : Sig}
    (h : submitUsageReport recover st sender now su cu ssig csig = .error .tooSoon) :
    onlyAfterInterval st sender now = .error .tooSoon := by
  unfold submitUsageReport at h
  generalize hbp : getBytePrice = bp at h
  split at h
  · injection h with h2
    subst h2
    assumption
  · exfalso
    split at h
    · split at h
      · split at h
        · split at h
          · split at h
            · split at h
              · injection h with h2
                subst h2
                rcases checkTimestampSkew_error (by assumption) with h3 | h3 | h3 <;> simp_all
              · split at h
                · injection h with h2
                  subst h2
                  rcases checkFreshTimestamps_error (by assumption) with h3 | h3 | h3 <;> simp_all
                · split at h
                  · split at h
                    · split at h
                      · injection h with h2
                        subst h2
                        rcases checkUsageDifference_error (by assumption) with h3 | h3 <;> simp_all
                      · split at h
                        · injection h with h2
                          subst h2
                          have := addU_error (show addU su.bytesUsed cu.bytesUsed = .error .tooSoon by assumption)
                          simp_all
                        · split at h
                          · injection h with h2
                            subst h2
                            have := mulU_error (by assumption)
                            simp_all
                          · split at h
                            · injection h with h2
                              subst h2
                              rcases payToServer_error (by assumption) with h3 | h3 <;> simp_all
                            · simp_all
                    · simp_all
                  · simp_all
            · simp_all
          · simp_all
        · simp_all
      · simp_all
    · simp_all

theorem setMap_eq_update (m : Address → Nat) (k : Address) (v : Nat) :
    setMap m k v = Function.update m k v := by
  funext a
  simp [setMap, Function.update_apply]

theorem transfer_sum {bal : Address → Nat} {fromAcct toAcct : Address} {amount : Nat}
    (hle : amount ≤ bal fromAcct) (s : Finset Address)
    (hf : fromAcct ∈ s) (ht : toAcct ∈ s) :
    (∑ a ∈ s, transfer bal fromAcct toAcct amount a) = ∑ a ∈ s, bal a := by
  unfold transfer
  simp only [setMap_eq_update]
  by_cases hft : fromAcct = toAcct
  · subst hft
    rw [Function.update_same, Function.update_idem, Nat.sub_add_cancel hle,
      Function.update_eq_self]
  · have hf' : fromAcct ∈ s.erase toAcct := Finset.mem_erase_of_ne_of_mem hft hf
    rw [Function.update_noteq (Ne.symm hft)]
    rw [Finset.sum_update_of_mem ht, ← Finset.erase_eq, Finset.sum_update_of_mem hf',
      ← Finset.erase_eq]
    rw [← Finset.add_sum_erase s bal ht, ← Finset.add_sum_erase (s.erase toAcct) bal hf']
    omega

/-- Claim C6: once a submission reaches the signature step, it reverts with
`invalidServerSignature` unless the identity recovered from the provider
record's signature equals that record's `serverAddr`, and then with
`invalidClientSignature` unless the consumer record's signature recovers to
its `clientAddr`; when both match, no signature error occurs.  Verification
(`verifySignature`) is a pure function of the record and signature: it takes
no contract state. -/
theorem submit_signature_gate (recover : Usage → Sig → Address) (st : VPNState)
    (sender now : Nat) (su cu : Usage) (ssig csig : Sig)
    (h1 : onlyAfterInterval st sender now = .ok ())
    (h2 : sender = cu.clientAddr ∨ sender = su.serverAddr)
    (h3 : su.bytesUsed > 0) (h4 : cu.bytesUsed > 0)
    (h5 : su.serverAddr = cu.serverAddr) (h6 : cu.clientAddr = su.clientAddr)
    (h7 : checkTimestampSkew su cu = .ok ())
    (h8 : checkFreshTimestamps st now su cu = .ok ()) :
    (verifySignature recover su ssig ≠ su.serverAddr →
      submitUsageReport recover st sender now su cu ssig csig
        = .error .invalidServerSignature)
    ∧ (verifySignature recover su ssig = su.serverAddr →
        verifySignature recover cu csig ≠ cu.clientAddr →
        submitUsageReport recover st sender now su cu ssig csig
          = .error .invalidClientSignature)
    ∧ (verifySignature recover su ssig = su.serverAddr →
        verifySignature recover cu csig = cu.clientAddr →
        submitUsageReport recover st sender now su cu ssig csig
          ≠ .error .invalidServerSignature
        ∧ submitUsageReport recover st sender now su cu ssig csig
          ≠ .error .invalidClientSignature) := by
  unfold submitUsageReport
  rw [h1, h7, h8]
  rw [if_pos h2, if_pos h3, if_pos h4, if_pos h5, if_pos h6]
  dsimp only
  refine ⟨?_, ?_, ?_⟩
  · intro hne
    rw [if_neg hne]
  · intro hs hc
    rw [if_pos hs, if_neg hc]
  · intro hs hc
    rw [if_pos hs, if_pos hc]
    constructor
    · intro hcontra
      generalize hg : getBytePrice = bp at hcontra
      split at hcontra
      · injection hcontra with h9
        subst h9
        rcases checkUsageDifference_error (by assumption) with h10 | h10 <;> simp_all
      · split at hcontra
        · injection hcontra with h9
          subst h9
          have := addU_error (show addU su.bytesUsed cu.bytesUsed
            = .error .invalidServerSignature by assumption)
          simp_all
        · split at hcontra
          · injection hcontra with h9
            subst h9
            have := mulU_error (by assumption)
            simp_all
          · split at hcontra
            · injection hcontra with h9
              subst h9
              rcases payToServer_error (by assumption) with h10 | h10 <;> simp_all
            · exact Except.noConfusion hcontra
    · intro hcontra
      generalize hg : getBytePrice = bp at hcontra
      split at hcontra
      · injection hcontra with h9
        subst h9
        rcases checkUsageDifference_error (by assumption) with h10 | h10 <;> simp_all
      · split at hcontra
        · injection hcontra with h9
          subst h9
          have := addU_error (show addU su.bytesUsed cu.bytesUsed
            = .error .invalidClientSignature by assumption)
          simp_all
        · split at hcontra
          · injection hcontra with h9
            subst h9
            have := mulU_error (by assumption)
            simp_all
          · split at hcontra
            · injection hcontra with h9
              subst h9
              rcases payToServer_error (by assumption) with h10 | h10 <;> simp_all
            · exact Except.noConfusion hcontra

theorem setMap_pair_apply {l : Address → Nat} {p c a : Address} {v : Nat}
    (h : a = p ∨ a = c) : setMap (setMap l p v) c v a = v := by
  rcases h with h | h <;> subst h <;> simp [setMap]

/-- Claim C1, amended: the rate limit is enforced for the caller only, not for
both session identities.  When the limit computation does not overflow, a
submission reverts with `tooSoon` exactly when `now` is before the caller's
`lastSubmitTime` plus the interval; and after a successful settlement at time
`now`, a follow-up submission by either participant at `now + interval - 1`
reverts with `tooSoon` while at `now + interval` the rate-limit check passes. -/
theorem submit_rate_limit_caller_only (recover : Usage → Sig → Address) (st : VPNState)
    (sender now : Nat) (su cu : Usage) (ssig csig : Sig)
    (hNoOv : st.lastSubmitTime sender + st.submitInterval < UMAX)
    (hNoOv2 : now + st.submitInterval < UMAX)
    (hpos : 0 < st.submitInterval) :
    (submitUsageReport recover st sender now su cu ssig csig = .error .tooSoon ↔
      now < st.lastSubmitTime sender + st.submitInterval)
    ∧ (txOk (submitUsageReport recover st sender now su cu ssig csig) = true →
        ∀ sender2 : Address, sender2 = su.serverAddr ∨ sender2 = cu.clientAddr →
        ∀ (su2 cu2 : Usage) (ssig2 csig2 : Sig),
          submitUsageReport recover
              (txState st (submitUsageReport recover st sender now su cu ssig csig))
              sender2 (now + st.submitInterval - 1) su2 cu2 ssig2 csig2
            = .error .tooSoon
          ∧ onlyAfterInterval
              (txState st (submitUsageReport recover st sender now su cu ssig csig))
              sender2 (now + st.submitInterval) = .ok ()) := by
  constructor
  · constructor
    · intro h
      exact (onlyAfterInterval_tooSoon_iff hNoOv).mp (submit_tooSoon_inv h)
    · intro h
      exact submit_rateLimited ((onlyAfterInterval_tooSoon_iff hNoOv).mpr h)
  · intro hok sender2 hs2 su2 cu2 ssig2 csig2
    obtain ⟨p, hp⟩ := txOk_true_iff.mp hok
    obtain ⟨hle, hpeq⟩ := submit_ok_spec hp
    subst hpeq
    rw [hp]
    have hl : (setMap (setMap st.lastSubmitTime su.serverAddr now) cu.clientAddr now) sender2
        = now := setMap_pair_apply hs2
    constructor
    · apply submit_rateLimited
      apply (onlyAfterInterval_tooSoon_iff (show (txState st (Except.ok _)).lastSubmitTime sender2
          + (txState st (Except.ok _)).submitInterval < UMAX from by
        show (setMap (setMap st.lastSubmitTime su.serverAddr now) cu.clientAddr now) sender2
            + st.submitInterval < UMAX
        rw [hl]
        exact hNoOv2)).mpr ?_
      show now + st.submitInterval - 1
          < (setMap (setMap st.lastSubmitTime su.serverAddr now) cu.clientAddr now) sender2
            + st.submitInterval
      rw [hl]
      omega
    · apply (onlyAfterInterval_ok_iff (show (txState st (Except.ok _)).lastSubmitTime sender2
          + (txState st (Except.ok _)).submitInterval < UMAX from by
        show (setMap (setMap st.lastSubmitTime su.serverAddr now) cu.clientAddr now) sender2
            + st.submitInterval < UMAX
        rw [hl]
        exact hNoOv2)).mpr ?_
      show (setMap (setMap st.lastSubmitTime su.serverAddr now) cu.clientAddr now) sender2
          + st.submitInterval ≤ now + st.submitInterval
      rw [hl]

/-- Claim C3: every successful submission bills the truncating average of the
two byte counts, emits the settlement event carrying exactly that amount, and
moves the averaged byte count times the unit price from the consumer's to the
provider's balance by a debit-then-credit transfer that never overdrafts. -/
theorem submit_ok_billing (recover : Usage → Sig → Address) (st : VPNState)
    (sender now : Nat) (su cu : Usage) (ssig csig : Sig)
    (h : txOk (submitUsageReport recover st sender now su cu ssig csig) = true) :
    txEvent (submitUsageReport recover st sender now su cu ssig csig)
      = some ⟨su.serverAddr, cu.clientAddr, (su.bytesUsed + cu.bytesUsed) / 2⟩
    ∧ (txState st (submitUsageReport recover st sender now su cu ssig csig)).balances
      = transfer st.balances cu.clientAddr su.serverAddr
          (((su.bytesUsed + cu.bytesUsed) / 2) * getBytePrice)
    ∧ ((su.bytesUsed + cu.bytesUsed) / 2) * getBytePrice ≤ st.balances cu.clientAddr := by
  obtain ⟨p, hp⟩ := txOk_true_iff.mp h
  obtain ⟨hle, hpeq⟩ := submit_ok_spec hp
  subst hpeq
  rw [hp]
  exact ⟨rfl, rfl, hle⟩

/-- Claim C4, amended: when the provider and consumer identities are distinct,
the consumer's balance decrease and the provider's balance increase both equal
the billed amount; and for every finite set of accounts containing both
parties, the sum of balances is unchanged by the settlement (this half holds
even when the two identities coincide). -/
theorem submit_conservation (recover : Usage → Sig → Address) (st : VPNState)
    (sender now : Nat) (su cu : Usage) (ssig csig : Sig)
    (h : txOk (submitUsageReport recover st sender now su cu ssig csig) = true) :
    (su.serverAddr ≠ cu.clientAddr →
      st.balances cu.clientAddr
          - (txState st (submitUsageReport recover st sender now su cu ssig csig)).balances
              cu.clientAddr
          = ((su.bytesUsed + cu.bytesUsed) / 2) * getBytePrice
        ∧ (txState st (submitUsageReport recover st sender now su cu ssig csig)).balances
              su.serverAddr
            - st.balances su.serverAddr
          = ((su.bytesUsed + cu.bytesUsed) / 2) * getBytePrice)
    ∧ ∀ s : Finset Address, su.serverAddr ∈ s → cu.clientAddr ∈ s →
        (∑ a ∈ s,
          (txState st (submitUsageReport recover st sender now su cu ssig csig)).balances a)
          = ∑ a ∈ s, st.balances a := by
  obtain ⟨p, hp⟩ := txOk_true_iff.mp h
  obtain ⟨hle, hpeq⟩ := submit_ok_spec hp
  subst hpeq
  rw [hp]
  constructor
  · intro hne
    constructor
    · show st.balances cu.clientAddr
          - transfer st.balances cu.clientAddr su.serverAddr
              (((su.bytesUsed + cu.bytesUsed) / 2) * getBytePrice) cu.clientAddr
          = ((su.bytesUsed + cu.bytesUsed) / 2) * getBytePrice
      simp [transfer, setMap, hne, Ne.symm hne]
      omega
    · show transfer st.balances cu.clientAddr su.serverAddr
              (((su.bytesUsed + cu.bytesUsed) / 2) * getBytePrice) su.serverAddr
            - st.balances su.serverAddr
          = ((su.bytesUsed + cu.bytesUsed) / 2) * getBytePrice
      simp [transfer, setMap, hne, Ne.symm hne]
  · intro s hps hcs
    exact transfer_sum hle s hcs hps

/-- Claim C5: a submission that reverts with any error leaves the observable
contract state exactly as it was and emits no event; in particular every
balance and every `lastSubmitTime` entry is unchanged. -/
theorem submit_error_leaves_state (recover : Usage → Sig → Address) (st : VPNState)
    (sender now : Nat) (su cu : Usage) (ssig csig : Sig) (e : Err)
    (h : submitUsageReport recover st sender now su cu ssig csig = .error e) :
    txState st (submitUsageReport recover st sender now su cu ssig csig) = st
    ∧ txEvent (submitUsageReport recover st sender now su cu ssig csig) = none
    ∧ ∀ a : Address,
        (txState st (submitUsageReport recover st sender now su cu ssig csig)).balances a
            = st.balances a
        ∧ (txState st (submitUsageReport recover st sender now su cu ssig csig)).lastSubmitTime a
            = st.lastSubmitTime a := by
  rw [h]
  exact ⟨rfl, rfl, fun a => ⟨rfl, rfl⟩⟩

/-- Claim C8, amended: when `now` is at least one interval, the staleness step
accepts a pair of records exactly when both timestamps are at least
`now - submitInterval`, and otherwise reverts with the corresponding stale
error; the check bounds only how old a report may be — timestamps arbitrarily
far in the future are not rejected. -/
theorem checkFreshTimestamps_lower_bound_only (st : VPNState) (now : Nat) (su cu : Usage)
    (hnow : st.submitInterval ≤ now) :
    (checkFreshTimestamps st now su cu = .ok () ↔
      now - st.submitInterval ≤ su.timestamp ∧ now - st.submitInterval ≤ cu.timestamp)
    ∧ (checkFreshTimestamps st now su cu = .ok ()
       ∨ checkFreshTimestamps st now su cu = .error .staleServerTimestamp
       ∨ checkFreshTimestamps st now su cu = .error .staleClientTimestamp) := by
  refine ⟨checkFreshTimestamps_ok_iff hnow, ?_⟩
  unfold checkFreshTimestamps
  rw [show subU now st.submitInterval = .ok (now - st.submitInterval) by
    unfold subU; simp [hnow]]
  dsimp only
  split_ifs <;> simp

/-- Claim C9, amended: the `onlyAfterInterval` modifier runs before the
function body, so the rate limit is checked before caller authorization.  A
caller who passes the rate limit and is neither the provider nor the consumer
identity receives `unauthorized` before any other check (regardless of the
records' contents); a rate-limited caller receives `tooSoon` — even a
non-participant. -/
theorem submit_unauthorized_after_rate_limit (recover : Usage → Sig → Address) (st : VPNState)
    (sender now : Nat) (su cu : Usage) (ssig csig : Sig)
    (hrl : onlyAfterInterval st sender now = .ok ())
    (hnc : sender ≠ cu.clientAddr) (hns : sender ≠ su.serverAddr) :
    submitUsageReport recover st sender now su cu ssig csig = .error .unauthorized
    ∧ ∀ st2 : VPNState, onlyAfterInterval st2 sender now = .error .tooSoon →
        submitUsageReport recover st2 sender now su cu ssig csig = .error .tooSoon := by
  constructor
  · unfold submitUsageReport
    rw [hrl]
    dsimp only
    rw [if_neg (by rintro (h | h) <;> [exact hnc h; exact hns h])]
  · intro st2 h2
    exact submit_rateLimited h2

/-- Claim C10: a successful settlement changes at most the balances and
`lastSubmitTime` entries of the two session identities; the token address,
the submit interval, the server registry, and every other identity's balance
and `lastSubmitTime` are unchanged. -/
theorem submit_frame_effect (recover : Usage → Sig → Address) (st : VPNState)
    (sender now : Nat) (su cu : Usage) (ssig csig : Sig)
    (h : txOk (submitUsageReport recover st sender now su cu ssig csig) = true) :
    (txState st (submitUsageReport recover st sender now su cu ssig csig)).tokenAddress
      = st.tokenAddress
    ∧ (txState st (submitUsageReport recover st sender now su cu ssig csig)).submitInterval
      = st.submitInterval
    ∧ (txState st (submitUsageReport recover st sender now su cu ssig csig)).servers
      = st.servers
    ∧ ∀ a : Address, a ≠ su.serverAddr → a ≠ cu.clientAddr →
        (txState st (submitUsageReport recover st sender now su cu ssig csig)).balances a
            = st.balances a
        ∧ (txState st (submitUsageReport recover st sender now su cu ssig csig)).lastSubmitTime a
            = st.lastSubmitTime a := by
  obtain ⟨p, hp⟩ := txOk_true_iff.mp h
  obtain ⟨hle, hpeq⟩ := submit_ok_spec hp
  subst hpeq
  rw [hp]
  refine ⟨rfl, rfl, rfl, ?_⟩
  intro a hap hac
  constructor
  · show transfer st.balances cu.clientAddr su.serverAddr
        (((su.bytesUsed + cu.bytesUsed) / 2) * getBytePrice) a = st.balances a
    simp [transfer, setMap, hap, hac]
  · show (setMap (setMap st.lastSubmitTime su.serverAddr now) cu.clientAddr now) a
        = st.lastSubmitTime a
    simp [setMap, hap, hac]

/-- Claim C2 (code bug): the usage-tolerance step does not implement the
documented absolute-difference comparison.  With provider bytes 1 and consumer
bytes 500 the difference (499) is within the tolerance (1000), yet the checked
subtraction `clientUsage.bytesUsed - maxDifference` underflows and the call
reverts with an arithmetic panic instead of passing.  The boundary examples of
the specification (10000 against 8900 and 8899) do behave as documented. -/
theorem checkUsageDifference_underflow_reverts :
    checkUsageDifference ⟨1, 2, 1, 100⟩ ⟨1, 2, 500, 100⟩ = .error .panic
    ∧ (500 : Nat) - 1 ≤ 1 * 1 / 100 + 1000
    ∧ checkUsageDifference ⟨1, 2, 10000, 100⟩ ⟨1, 2, 8900, 100⟩ = .ok ()
    ∧ checkUsageDifference ⟨1, 2, 10000, 100⟩ ⟨1, 2, 8899, 100⟩ = .error .usageMismatch :=
  ⟨rfl, by decide, rfl, rfl⟩

/-- Claim C7 (code bug): the timestamp-skew step does not implement the
documented absolute-difference comparison.  With timestamps 15 and 10, both
positive and only 5 seconds apart, the checked subtraction
`clientUsage.timestamp - 20` underflows and the call reverts with an
arithmetic panic instead of passing.  For timestamps at least 20, the
20-second boundary behaves as documented: 20 seconds apart passes, 21 seconds
apart reverts with `timestampSkew`. -/
theorem checkTimestampSkew_underflow_reverts :
    checkTimestampSkew ⟨1, 2, 5000, 15⟩ ⟨1, 2, 5000, 10⟩ = .error .panic
    ∧ (0 : Nat) < 15 ∧ (0 : Nat) < 10 ∧ (15 : Nat) - 10 ≤ 20
    ∧ checkTimestampSkew ⟨1, 2, 5000, 120⟩ ⟨1, 2, 5000, 100⟩ = .ok ()
    ∧ checkTimestampSkew ⟨1, 2, 5000, 121⟩ ⟨1, 2, 5000, 100⟩ = .error .timestampSkew :=
  ⟨rfl, by decide, by decide, by decide, rfl, rfl⟩

/-- Counterexample for claim C1 as stated: the provider identity is still
rate-limited (its last settlement was at 95 and the interval is 10), yet a
submission involving it at time 104 by a fresh caller succeeds. -/
theorem submit_counterparty_rate_limit_not_checked :
    (104 : Nat) < stC1.lastSubmitTime su0.serverAddr + stC1.submitInterval
    ∧ txOk (submitUsageReport recoverBySig stC1 2 104 su0 cu0 1 2) = true :=
  ⟨by decide, by decide⟩

/-- Counterexample for claim C4 as stated: a successful self-settlement where
one identity plays both roles leaves that identity's balance unchanged, so
the claimed before-minus-after difference does not equal the billed amount. -/
theorem submit_self_pair_breaks_conservation :
    su4.serverAddr = su4.clientAddr
    ∧ txOk (submitUsageReport recoverBySig st4 5 100 su4 su4 5 5) = true
    ∧ (txState st4 (submitUsageReport recoverBySig st4 5 100 su4 su4 5 5)).balances 5
        = st4.balances 5
    ∧ st4.balances 5
        - (txState st4 (submitUsageReport recoverBySig st4 5 100 su4 su4 5 5)).balances 5
      ≠ ((su4.bytesUsed + su4.bytesUsed) / 2) * getBytePrice :=
  ⟨rfl, by decide, by decide, by decide⟩

/-- Counterexample for claim C8 as stated: records whose timestamps lie a full
100 seconds in the future of the submission (ten times the interval) pass the
staleness step and the whole submission succeeds. -/
theorem submit_accepts_future_timestamps :
    st0.submitInterval + 100 < suF.timestamp
    ∧ txOk (submitUsageReport recoverBySig st0 1 100 suF suF 1 2) = true :=
  ⟨by decide, by decide⟩

/-- Counterexample for claim C9 as stated: a rate-limited caller who is
neither session identity receives `tooSoon`, not `unauthorized`, because the
modifier runs before the authorization check. -/
theorem submit_rate_limited_nonparticipant_gets_tooSoon :
    (3 : Nat) ≠ su0.serverAddr ∧ (3 : Nat) ≠ cu0.clientAddr
    ∧ (100 : Nat) < st9.lastSubmitTime 3 + st9.submitInterval
    ∧ submitUsageReport recoverBySig st9 3 100 su0 cu0 1 2 = .error .tooSoon :=
  ⟨by decide, by decide, by decide, rfl⟩

/-- Witness instantiating the caller-only rate-limit theorem on a concrete
rate-limited caller. -/
theorem submit_rate_limit_caller_only_witness :
    submitUsageReport recoverBySig stC1 1 100 su0 cu0 1 2 = .error .tooSoon :=
  (submit_rate_limit_caller_only recoverBySig stC1 1 100 su0 cu0 1 2
    (by decide) (by decide) (by decide)).1.mpr (by decide)

/-- Witness instantiating the billing theorem on a concrete successful
settlement. -/
theorem submit_ok_billing_witness :
    txEvent (submitUsageReport recoverBySig st0 1 100 su0 cu0 1 2) = some ⟨1, 2, 5000⟩ :=
  (submit_ok_billing recoverBySig st0 1 100 su0 cu0 1 2 (by decide)).1

/-- Witness instantiating the conservation theorem on a concrete successful
settlement between distinct parties. -/
theorem submit_conservation_witness :
    st0.balances 2
        - (txState st0 (submitUsageReport recoverBySig st0 1 100 su0 cu0 1 2)).balances 2
      = ((su0.bytesUsed + cu0.bytesUsed) / 2) * getBytePrice :=
  ((submit_conservation recoverBySig st0 1 100 su0 cu0 1 2 (by decide)).1 (by decide)).1

/-- Witness instantiating the rejection-atomicity theorem on a concrete
unauthorized submission. -/
theorem submit_error_leaves_state_witness :
    txState st0 (submitUsageReport recoverBySig st0 3 100 su0 cu0 1 2) = st0 :=
  (submit_error_leaves_state recoverBySig st0 3 100 su0 cu0 1 2 .unauthorized rfl).1

/-- Witness instantiating the signature-gate theorem on a concrete submission
whose provider signature recovers to the wrong identity. -/
theorem submit_signature_gate_witness :
    submitUsageReport recoverBySig st0 1 100 su0 cu0 9 2 = .error .invalidServerSignature :=
  (submit_signature_gate recoverBySig st0 1 100 su0 cu0 9 2 rfl (by decide) (by decide)
      (by decide) (by decide) (by decide) rfl rfl).1 (by decide)

/-- Witness instantiating the staleness theorem on a concrete fresh pair. -/
theorem checkFreshTimestamps_lower_bound_only_witness :
    checkFreshTimestamps st0 100 su0 cu0 = .ok () :=
  (checkFreshTimestamps_lower_bound_only st0 100 su0 cu0 (by decide)).1.mpr (by decide)

/-- Witness instantiating the authorization-order theorem on a concrete
non-participant caller. -/
theorem submit_unauthorized_after_rate_limit_witness :
    submitUsageReport recoverBySig st0 3 100 su0 cu0 1 2 = .error .unauthorized :=
  (submit_unauthorized_after_rate_limit recoverBySig st0 3 100 su0 cu0 1 2 rfl
    (by decide) (by decide)).1

/-- Witness instantiating the frame theorem on a concrete bystander account. -/
theorem submit_frame_effect_witness :
    (txState st0 (submitUsageReport recoverBySig st0 1 100 su0 cu0 1 2)).balances 7
      = st0.balances 7 :=
  ((submit_frame_effect recoverBySig st0 1 100 su0 cu0 1 2 (by decide)).2.2.2 7
    (by decide) (by decide)).1

end Web3VPN
